import Mathlib

/-!
# Verification of the Leny UI Automation core data model

Shallow embedding of the TypeScript type declarations and of the
frontend logic of the `leny-ui-automation` repository, together with
models (from the specification) of the validation, locator-resolution
and result-aggregation contracts whose implementation lives in the
external execution service.

String-union types of the source become inductive types; interfaces
become structures; optional fields (`field?: T`) become `Option`;
`number` fields used as counts/durations become `Nat`.
-/

namespace Leny

/-- `ExecutionStatus` from the source: the six-way string union
`pending | running | passed | failed | skipped | error`. -/
inductive ExecutionStatus where
  | pending
  | running
  | passed
  | failed
  | skipped
  | error
deriving DecidableEq, Repr

/-- `TestStepType` from the source: the fifteen-way string union of
step actions. -/
inductive TestStepType where
  | navigate
  | click
  | fill
  | type
  | select
  | check
  | uncheck
  | hover
  | wait
  | assert_text
  | assert_visible
  | assert_hidden
  | assert_value
  | press_key
  | screenshot
deriving DecidableEq, Repr

/-- `ElementLocator` from the source: a named bundle of optional
identification hints. -/
structure ElementLocator where
  name : String
  description : Option String
  data_testid : Option String
  id : Option String
  aria_label : Option String
  role : Option String
  css : Option String
  text : Option String
  xpath : Option String
  placeholder : Option String
deriving DecidableEq, Repr

/-- `TestStep` from the source.  `metadata: Record<string, unknown>` is
embedded as an association list of strings (its contents are free-form
and play no role in any contract). -/
structure TestStep where
  step_number : Nat
  action : TestStepType
  description : String
  element : Option ElementLocator
  value : Option String
  timeout : Option Nat
  metadata : Option (List (String × String))
deriving DecidableEq, Repr

/-- `TestCase` from the source. Timestamps are ISO-8601 strings. -/
structure TestCase where
  id : String
  name : String
  description : String
  tags : List String
  steps : List TestStep
  setup_steps : List TestStep
  teardown_steps : List TestStep
  created_at : String
  updated_at : String
  last_run_status : Option ExecutionStatus
  last_run_at : Option String
deriving DecidableEq, Repr

/-- `TestCaseCreate` from the source.  Note that in the source
`setup_steps` and `teardown_steps` carry a `?` (optional), unlike in
`TestCase`. -/
structure TestCaseCreate where
  name : String
  description : String
  tags : List String
  steps : List TestStep
  setup_steps : Option (List TestStep)
  teardown_steps : Option (List TestStep)
deriving DecidableEq, Repr

/-- `StepResult` from the source. -/
structure StepResult where
  step_number : Nat
  description : String
  status : ExecutionStatus
  action_type : String
  duration_ms : Nat
  error_message : Option String
  element_name : Option String
  has_screenshot : Bool
deriving DecidableEq, Repr

/-- `TestExecution` from the source. -/
structure TestExecution where
  execution_id : String
  test_name : String
  status : ExecutionStatus
  started_at : String
  completed_at : Option String
  duration_ms : Nat
  passed_steps : Nat
  failed_steps : Nat
  total_steps : Nat
  step_results : List StepResult
  error_message : Option String
  page_url : Option String
deriving DecidableEq, Repr

/-- The six values of `ExecutionStatus`, in source order. -/
def allExecutionStatuses : List ExecutionStatus :=
  [.pending, .running, .passed, .failed, .skipped, .error]

/-- The fifteen values of `TestStepType`, in source order. -/
def allTestStepTypes : List TestStepType :=
  [.navigate, .click, .fill, .type, .select, .check, .uncheck, .hover,
   .wait, .assert_text, .assert_visible, .assert_hidden, .assert_value,
   .press_key, .screenshot]

/-- The string each `ExecutionStatus` value stands for in the source's
string union. -/
def statusString : ExecutionStatus → String
  | .pending => "pending"
  | .running => "running"
  | .passed => "passed"
  | .failed => "failed"
  | .skipped => "skipped"
  | .error => "error"

/-! ## Badge rendering (`StatusBadge` component) -/

/-- The `variant` prop of the `Badge` component:
`default | success | warning | error | info`. -/
inductive BadgeVariant where
  | default
  | success
  | warning
  | error
  | info
deriving DecidableEq, Repr

/-- A rendered status badge: the variant passed to `Badge` and the
visible text child. -/
structure RenderedBadge where
  variant : BadgeVariant
  label : String
deriving DecidableEq, Repr

/-- The `statusVariants` record inside `StatusBadge`. -/
def statusVariants : ExecutionStatus → BadgeVariant
  | .passed => .success
  | .failed => .error
  | .error => .error
  | .running => .info
  | .pending => .warning
  | .skipped => .default

/-- `status.charAt(0).toUpperCase() + status.slice(1)` from the source:
the first character uppercased, the rest unchanged. -/
def capitalizeFirst (s : String) : String :=
  match s.data with
  | [] => s
  | c :: cs => ⟨c.toUpper :: cs⟩

/-- The `StatusBadge` component: picks the variant from
`statusVariants` and renders the capitalized status string as label. -/
def StatusBadge (status : ExecutionStatus) : RenderedBadge :=
  ⟨statusVariants status, capitalizeFirst (statusString status)⟩

/-! ## Saving a generated test (`handleSave` in the new-test page) -/

/-- `handleSave` from the new-test page: if a test has been generated,
send it to the create-test API with `name` replaced by
`testName || generatedTest.name` (JavaScript `||`: the user-entered
name when it is non-empty, otherwise the generated name); if no test
has been generated, send nothing. Returns the request payload, `none`
when no request is made. -/
def handleSave (generatedTest : Option TestCaseCreate) (testName : String) :
    Option TestCaseCreate :=
  match generatedTest with
  | none => none
  | some t => some { t with name := if testName = "" then t.name else testName }

/-! ## Execution result aggregation (modelled from the spec, §4.3) -/

/-- Modelled from the spec: the terminal-status derivation of §4.3,
whose implementation lives in the external execution engine.
`error` if a harness-level fault occurred; else `failed` if any step
result has status `failed`; else `skipped` if every step result has
status `skipped`; else `passed`. -/
def deriveStatus (harnessFault : Bool) (stepStatuses : List ExecutionStatus) :
    ExecutionStatus :=
  if harnessFault then .error
  else if stepStatuses.any (fun s => decide (s = .failed)) then .failed
  else if stepStatuses.all (fun s => decide (s = .skipped)) then .skipped
  else .passed

/-- A step-level status that concluded: one of
`passed | failed | skipped | error`. -/
def isTerminal : ExecutionStatus → Bool
  | .passed => true
  | .failed => true
  | .skipped => true
  | .error => true
  | .pending => false
  | .running => false

/-- Number of step results carrying a given status. -/
def countWithStatus (st : ExecutionStatus) (rs : List StepResult) : Nat :=
  rs.countP (fun r => decide (r.status = st))

/-- Modelled from the spec: the fold of §4.3 that turns the concluded
ordered `step_results` sequence (plus run metadata and the
harness-fault flag) into a completed `TestExecution`; the
implementation lives in the external execution engine.  Counts are
over all executed steps; `completed_at` is set on completion. -/
def foldExecution (executionId testName startedAt completedAt : String)
    (harnessFault : Bool) (durationMs : Nat) (errorMsg : Option String)
    (pageUrl : Option String) (rs : List StepResult) : TestExecution :=
  { execution_id := executionId
    test_name := testName
    status := deriveStatus harnessFault (rs.map (fun r => r.status))
    started_at := startedAt
    completed_at := some completedAt
    duration_ms := durationMs
    passed_steps := countWithStatus .passed rs
    failed_steps := countWithStatus .failed rs
    total_steps := rs.length
    step_results := rs
    error_message := errorMsg
    page_url := pageUrl }

/-- Modelled from the spec: the execution engine's construction of one
`StepResult` (§3: "an optional `error_message` (present iff status is
`failed` or `error`)"; §7: "every failure carries a human-readable
message"). -/
def recordStep (stepNumber : Nat) (descr : String) (status : ExecutionStatus)
    (actionType : String) (durationMs : Nat) (failureMsg : String)
    (elementName : Option String) (hasShot : Bool) : StepResult :=
  { step_number := stepNumber
    description := descr
    status := status
    action_type := actionType
    duration_ms := durationMs
    error_message :=
      if status = .failed ∨ status = .error then some failureMsg else none
    element_name := elementName
    has_screenshot := hasShot }

/-! ## Field-level schema of `TestCase` versus `TestCaseCreate` -/

/-- Type tags for the fields occurring in `TestCase` and
`TestCaseCreate`. -/
inductive FieldTy where
  | str
  | strList
  | stepList
  | execStatus
deriving DecidableEq, Repr

/-- One field of an interface: its name, base type and whether the
source marks it optional (`?`). -/
structure FieldDesc where
  fieldName : String
  ty : FieldTy
  optional : Bool
deriving DecidableEq, Repr

/-- The fields of `TestCase`, transcribed from the source in order. -/
def testCaseFields : List FieldDesc :=
  [⟨"id", .str, false⟩,
   ⟨"name", .str, false⟩,
   ⟨"description", .str, false⟩,
   ⟨"tags", .strList, false⟩,
   ⟨"steps", .stepList, false⟩,
   ⟨"setup_steps", .stepList, false⟩,
   ⟨"teardown_steps", .stepList, false⟩,
   ⟨"created_at", .str, false⟩,
   ⟨"updated_at", .str, false⟩,
   ⟨"last_run_status", .execStatus, true⟩,
   ⟨"last_run_at", .str, true⟩]

/-- The fields of `TestCaseCreate`, transcribed from the source in
order (`setup_steps?` and `teardown_steps?` are optional there). -/
def testCaseCreateFields : List FieldDesc :=
  [⟨"name", .str, false⟩,
   ⟨"description", .str, false⟩,
   ⟨"tags", .strList, false⟩,
   ⟨"steps", .stepList, false⟩,
   ⟨"setup_steps", .stepList, true⟩,
   ⟨"teardown_steps", .stepList, true⟩]

/-- The identity and audit fields of `TestCase`. -/
def identityAuditFields : List String :=
  ["id", "created_at", "updated_at", "last_run_status", "last_run_at"]

/-- `TestCase` fields with the identity/audit fields removed. -/
def strippedTestCaseFields : List FieldDesc :=
  testCaseFields.filter (fun f => decide (f.fieldName ∉ identityAuditFields))

/-! ## Test case validation (modelled from the spec, §4.2 and §7) -/

/-- Validation failures of §7's taxonomy that apply to a
`TestCaseCreate`. -/
inductive ValidationError where
  | emptySteps
  | stepMissingElement (stepNumber : Nat)
deriving DecidableEq, Repr

/-- Modelled from the spec (§4.2): whether an action requires an
`element` — "any non-navigate, non-wait, non-`assert_text`-without-target
action". -/
def requiresElement (a : TestStepType) : Bool :=
  !(decide (a = .navigate) || decide (a = .wait) || decide (a = .assert_text))

/-- Modelled from the spec (§4.2, §7): validation of a
`TestCaseCreate`, whose implementation lives in the external service.
Rejects an empty body `steps` sequence with a `ValidationError`, then
rejects any step whose action requires an element but omits one;
returning `Except.error` persists nothing.  On acceptance, tags are
deduplicated. -/
def validateTestCaseCreate (tc : TestCaseCreate) :
    Except ValidationError TestCaseCreate :=
  if tc.steps.isEmpty then .error .emptySteps
  else
    match tc.steps.find? (fun s => requiresElement s.action && s.element.isNone) with
    | some s => .error (.stepMissingElement s.step_number)
    | none => .ok { tc with tags := tc.tags.dedup }

/-! ## Locator resolution (modelled from the spec, §4.1) -/

/-- One element of the (abstract) page the resolver searches.  DOM
matching of structural selectors and path expressions is out of the
spec's scope, so it is abstracted as the list of selector strings the
element matches. -/
structure PageElement where
  data_testid : Option String
  id : Option String
  aria_label : Option String
  role : Option String
  text : Option String
  placeholder : Option String
  css_matches : List String
  xpath_matches : List String
  visible : Bool
  interactable : Bool
deriving DecidableEq, Repr

/-- A page is its list of live elements. -/
abbrev Page := List PageElement

/-- The candidate strategies of §4.1, one per hint field of
`ElementLocator` (accessible label and role form one pair). -/
inductive Strategy where
  | testId
  | labelRole
  | htmlId
  | cssSelector
  | visibleText
  | xpathExpr
  | placeholderHint
deriving DecidableEq, Repr

/-- Modelled from the spec (§4.1): the recommended precedence, most to
least stable. -/
def precedenceOrder : List Strategy :=
  [.testId, .labelRole, .htmlId, .cssSelector, .visibleText, .xpathExpr,
   .placeholderHint]

/-- Whether the locator carries the hint(s) a strategy needs; with no
hint there is "no candidate strategy". -/
def hintPresent (loc : ElementLocator) : Strategy → Bool
  | .testId => loc.data_testid.isSome
  | .labelRole => loc.aria_label.isSome && loc.role.isSome
  | .htmlId => loc.id.isSome
  | .cssSelector => loc.css.isSome
  | .visibleText => loc.text.isSome
  | .xpathExpr => loc.xpath.isSome
  | .placeholderHint => loc.placeholder.isSome

/-- Both present and equal. -/
def optEq (a b : Option String) : Bool :=
  match a, b with
  | some x, some y => x == y
  | _, _ => false

/-- Modelled from the spec (§4.1): whether a live, visible,
interactable element is matched by one strategy of the locator. -/
def elementMatches (loc : ElementLocator) (s : Strategy) (e : PageElement) :
    Bool :=
  e.visible && e.interactable &&
    match s with
    | .testId => optEq loc.data_testid e.data_testid
    | .labelRole => optEq loc.aria_label e.aria_label && optEq loc.role e.role
    | .htmlId => optEq loc.id e.id
    | .cssSelector =>
      match loc.css with
      | some sel => e.css_matches.contains sel
      | none => false
    | .visibleText => optEq loc.text e.text
    | .xpathExpr =>
      match loc.xpath with
      | some xp => e.xpath_matches.contains xp
      | none => false
    | .placeholderHint => optEq loc.placeholder e.placeholder

/-- The candidate elements one strategy yields, `none` when the locator
lacks the hint (strategy not attempted). -/
def attemptStrategy (loc : ElementLocator) (page : Page) (s : Strategy) :
    Option (List PageElement) :=
  if hintPresent loc s then some (page.filter (elementMatches loc s)) else none

/-- `LocatorResolutionError` of §4.1: the locator name and the
attempted strategies with their match counts. -/
structure LocatorResolutionError where
  locator_name : String
  attempts : List (Strategy × Nat)
deriving DecidableEq, Repr

/-- Modelled from the spec (§4.1): try the strategies in order; the
first one yielding exactly one element wins; zero or multiple matches
are inconclusive and recorded; exhausting all strategies fails. -/
def resolveFrom : List Strategy → ElementLocator → Page →
    List (Strategy × Nat) → Except LocatorResolutionError PageElement
  | [], loc, _, attempts => .error ⟨loc.name, attempts.reverse⟩
  | s :: rest, loc, page, attempts =>
    match attemptStrategy loc page s with
    | none => resolveFrom rest loc page attempts
    | some [e] => .ok e
    | some ms => resolveFrom rest loc page ((s, ms.length) :: attempts)

/-- Modelled from the spec (§4.1): resolution of an `ElementLocator`
against a page.  "Resolution must not mutate the page; it is a pure
lookup", so the page comes back with the outcome. -/
def resolve (loc : ElementLocator) (page : Page) :
    Except LocatorResolutionError PageElement × Page :=
  (resolveFrom precedenceOrder loc page [], page)

/-! ## Concrete sample data -/

/-- A locator for a login button, identified by its test id. -/
def sampleLoginButton : ElementLocator :=
  ⟨"login-button", none, some "login-btn", none, none, none, none, none,
   none, none⟩

/-- A navigation step (needs no element). -/
def sampleNavStep : TestStep :=
  ⟨1, .navigate, "Open the login page", none, some "/login", none, none⟩

/-- A click step targeting the login button. -/
def sampleClickStep : TestStep :=
  ⟨2, .click, "Click the login button", some sampleLoginButton, none, none,
   none⟩

/-- A generated test case payload. -/
def sampleGenerated : TestCaseCreate :=
  ⟨"Generated login test", "Logs in and checks the dashboard", ["auth"],
   [sampleNavStep, sampleClickStep], none, none⟩

/-- A test case payload whose body steps sequence is empty. -/
def sampleEmptyCreate : TestCaseCreate :=
  ⟨"Empty test", "has no steps", [], [], none, none⟩

/-- A passed step result. -/
def samplePassedResult : StepResult :=
  ⟨1, "Open the login page", .passed, "navigate", 120, none, none, false⟩

/-- A failed step result. -/
def sampleFailedResult : StepResult :=
  ⟨2, "Click the login button", .failed, "click", 45,
   some "element not found", some "login-button", true⟩

/-- A concluded step-result sequence. -/
def sampleResults : List StepResult :=
  [samplePassedResult, sampleFailedResult]

/-- The execution summary folded from `sampleResults`. -/
def sampleExecution : TestExecution :=
  foldExecution "exec-1" "Login flow" "t0" "t1" false 165 none none
    sampleResults

/-- The page element `sampleLoginButton` resolves to. -/
def sampleButtonElement : PageElement :=
  ⟨some "login-btn", some "login", some "Log in", some "button",
   some "Log in", none, [], [], true, true⟩

/-- A page holding the button and one invisible element. -/
def samplePage : Page :=
  [sampleButtonElement,
   ⟨some "hidden-btn", none, none, none, none, none, [], [], false, true⟩]

/-! # Theorems -/

/-- Helper: `List.any` is invariant under permutation. -/
theorem any_perm_congr {l l' : List ExecutionStatus}
    (p : ExecutionStatus → Bool) (h : l.Perm l') : l.any p = l'.any p := by
  refine Bool.eq_iff_iff.mpr ?_
  simp only [List.any_eq_true]
  constructor
  · rintro ⟨x, hx, hpx⟩
    exact ⟨x, h.mem_iff.mp hx, hpx⟩
  · rintro ⟨x, hx, hpx⟩
    exact ⟨x, h.mem_iff.mpr hx, hpx⟩

/-- Helper: `List.all` is invariant under permutation. -/
theorem all_perm_congr {l l' : List ExecutionStatus}
    (p : ExecutionStatus → Bool) (h : l.Perm l') : l.all p = l'.all p := by
  refine Bool.eq_iff_iff.mpr ?_
  simp only [List.all_eq_true]
  constructor
  · intro hall x hx
    exact hall x (h.mem_iff.mpr hx)
  · intro hall x hx
    exact hall x (h.mem_iff.mp hx)

/-- Helper: no `failed` in the list means the `any`-failed scan is
false. -/
theorem any_failed_false_of_not_mem {l : List ExecutionStatus}
    (hmem : ExecutionStatus.failed ∉ l) :
    l.any (fun s => decide (s = ExecutionStatus.failed)) = false := by
  cases hc : l.any (fun s => decide (s = ExecutionStatus.failed)) with
  | false => rfl
  | true =>
    obtain ⟨x, hx, hpx⟩ := List.any_eq_true.mp hc
    rw [decide_eq_true_eq] at hpx
    exact absurd (hpx ▸ hx) hmem

/-- C1: the overall status of a completed run is a pure,
order-independent function of the multiset of step statuses plus the
harness-fault flag: `error` on a harness fault, else `failed` when some
step status is `failed`, else `skipped` when every step status is
`skipped`, else `passed`; permuting the step results never changes the
derived status. -/
theorem deriveStatus_order_independent_precedence (fault : Bool)
    (l l' : List ExecutionStatus) (hperm : l.Perm l') :
    deriveStatus fault l = deriveStatus fault l' ∧
    (fault = true → deriveStatus fault l = .error) ∧
    (fault = false → ExecutionStatus.failed ∈ l →
      deriveStatus fault l = .failed) ∧
    (fault = false → ExecutionStatus.failed ∉ l →
      (∀ s ∈ l, s = ExecutionStatus.skipped) →
      deriveStatus fault l = .skipped) ∧
    (fault = false → ExecutionStatus.failed ∉ l →
      ¬(∀ s ∈ l, s = ExecutionStatus.skipped) →
      deriveStatus fault l = .passed) := by
  refine ⟨?_, ?_, ?_, ?_, ?_⟩
  · unfold deriveStatus
    rw [any_perm_congr _ hperm, all_perm_congr _ hperm]
  · intro hf
    simp [deriveStatus, hf]
  · intro hf hmem
    have hany : l.any (fun s => decide (s = ExecutionStatus.failed)) = true :=
      List.any_eq_true.mpr ⟨.failed, hmem, by decide⟩
    simp [deriveStatus, hf, hany]
  · intro hf hmem hall
    have hAll : l.all (fun s => decide (s = ExecutionStatus.skipped)) = true :=
      List.all_eq_true.mpr fun s hs => decide_eq_true (hall s hs)
    simp [deriveStatus, hf, any_failed_false_of_not_mem hmem, hAll]
  · intro hf hmem hnall
    have hAll : l.all (fun s => decide (s = ExecutionStatus.skipped)) = false := by
      cases hc : l.all (fun s => decide (s = ExecutionStatus.skipped)) with
      | false => rfl
      | true =>
        exact absurd
          (fun s hs => of_decide_eq_true (List.all_eq_true.mp hc s hs)) hnall
    simp [deriveStatus, hf, any_failed_false_of_not_mem hmem, hAll]

/-- Witness for C1 at a concrete permuted pair of status lists. -/
theorem deriveStatus_order_independent_precedence_witness :
    deriveStatus false [ExecutionStatus.passed, ExecutionStatus.failed] =
      deriveStatus false [ExecutionStatus.failed, ExecutionStatus.passed] ∧
    deriveStatus false [ExecutionStatus.passed, ExecutionStatus.failed] =
      ExecutionStatus.failed := by
  have h := deriveStatus_order_independent_precedence false
    [ExecutionStatus.passed, ExecutionStatus.failed]
    [ExecutionStatus.failed, ExecutionStatus.passed] (by decide)
  exact ⟨h.1, h.2.2.1 rfl (by decide)⟩

/-- Helper: over concluded step results the length splits into the four
terminal status counts. -/
theorem length_eq_statusCounts (rs : List StepResult)
    (h : ∀ r ∈ rs, isTerminal r.status = true) :
    rs.length = countWithStatus .passed rs + countWithStatus .failed rs +
      countWithStatus .skipped rs + countWithStatus .error rs := by
  induction rs with
  | nil => rfl
  | cons r rest ih =>
    have hr : isTerminal r.status = true := h r (List.mem_cons_self r rest)
    have hrest := ih fun x hx => h x (List.mem_cons_of_mem r hx)
    cases hst : r.status <;>
      rw [hst] at hr <;>
      simp_all [countWithStatus, List.countP_cons, isTerminal] <;>
      omega

/-- C2: a completed execution folded from concluded step results has
`completed_at` set, `total_steps` equal to the length of
`step_results`, and `total_steps` equal to the sum of `passed_steps`,
`failed_steps` and the skipped and error step-result counts. -/
theorem foldExecution_counts_invariant (eid tn sa ca : String)
    (fault : Bool) (dms : Nat) (em pu : Option String)
    (rs : List StepResult) (e : TestExecution)
    (he : e = foldExecution eid tn sa ca fault dms em pu rs)
    (hterm : ∀ r ∈ rs, isTerminal r.status = true) :
    e.completed_at.isSome = true ∧
    e.total_steps = e.step_results.length ∧
    e.total_steps = e.passed_steps + e.failed_steps +
      countWithStatus .skipped e.step_results +
      countWithStatus .error e.step_results := by
  subst he
  exact ⟨rfl, rfl, length_eq_statusCounts rs hterm⟩

/-- Witness for C2 at the sample execution. -/
theorem foldExecution_counts_invariant_witness :
    sampleExecution.completed_at.isSome = true ∧
    sampleExecution.total_steps = sampleExecution.step_results.length ∧
    sampleExecution.total_steps =
      sampleExecution.passed_steps + sampleExecution.failed_steps +
      countWithStatus .skipped sampleExecution.step_results +
      countWithStatus .error sampleExecution.step_results :=
  foldExecution_counts_invariant "exec-1" "Login flow" "t0" "t1" false 165
    none none sampleResults sampleExecution rfl (by decide)

/-- C3: a recorded `StepResult` carries an `error_message` iff its
status is `failed` or `error`. -/
theorem recordStep_error_message_iff (stepNumber : Nat) (descr : String)
    (status : ExecutionStatus) (actionType : String) (durationMs : Nat)
    (failureMsg : String) (elementName : Option String) (hasShot : Bool) :
    (recordStep stepNumber descr status actionType durationMs failureMsg
      elementName hasShot).error_message.isSome = true ↔
      (status = .failed ∨ status = .error) := by
  cases status <;> simp [recordStep]

/-- C4 counterexample: the fields of `TestCaseCreate` are NOT exactly
the fields of `TestCase` minus the identity/audit fields with type and
optionality preserved — `setup_steps` and `teardown_steps` are required
in `TestCase` but optional in `TestCaseCreate`. -/
theorem testCaseCreate_fields_not_plain_strip :
    ¬(testCaseCreateFields = strippedTestCaseFields) := by decide

/-- C4 (amended): the fields of `TestCaseCreate` are exactly those of
`TestCase` minus `id`, `created_at`, `updated_at`, `last_run_status`
and `last_run_at`, with names, order and types preserved, except that
`setup_steps` and `teardown_steps` become optional. -/
theorem testCaseCreate_fields_strip_with_optional_phases :
    testCaseCreateFields =
      strippedTestCaseFields.map
        (fun f =>
          if f.fieldName = "setup_steps" ∨ f.fieldName = "teardown_steps"
          then ⟨f.fieldName, f.ty, true⟩
          else f) := by decide

/-- C5: `ExecutionStatus` takes exactly the six values
`pending, running, passed, failed, skipped, error`, and this one type
gives both a `StepResult` its per-step `status` and a `TestExecution`
its overall `status`. -/
theorem executionStatus_six_values_shared :
    allExecutionStatuses.length = 6 ∧ allExecutionStatuses.Nodup ∧
    (∀ s : ExecutionStatus, s ∈ allExecutionStatuses) ∧
    (∀ r : StepResult, r.status ∈ allExecutionStatuses) ∧
    (∀ e : TestExecution, e.status ∈ allExecutionStatuses) := by
  have hall : ∀ s : ExecutionStatus, s ∈ allExecutionStatuses := fun s => by
    cases s <;> simp [allExecutionStatuses]
  exact ⟨rfl, by decide, hall, fun r => hall r.status, fun e => hall e.status⟩

/-- C6: a `TestStep`'s `action` is drawn from the closed set of exactly
fifteen step kinds of `TestStepType`. -/
theorem testStepType_fifteen_kinds :
    allTestStepTypes.length = 15 ∧ allTestStepTypes.Nodup ∧
    (∀ a : TestStepType, a ∈ allTestStepTypes) ∧
    (∀ s : TestStep, s.action ∈ allTestStepTypes) := by
  have hall : ∀ a : TestStepType, a ∈ allTestStepTypes := fun a => by
    cases a <;> simp [allTestStepTypes]
  exact ⟨rfl, by decide, hall, fun s => hall s.action⟩

/-- C9: `StatusBadge` is total over `ExecutionStatus`, maps `passed` to
the success variant, `failed` and `error` to the error variant,
`running` to info, `pending` to warning and `skipped` to the default
variant, and labels the badge with the status string, first character
uppercased. -/
theorem statusBadge_total_mapping :
    (∀ st : ExecutionStatus,
      (StatusBadge st).label = capitalizeFirst (statusString st)) ∧
    StatusBadge .passed = ⟨.success, "Passed"⟩ ∧
    StatusBadge .failed = ⟨.error, "Failed"⟩ ∧
    StatusBadge .error = ⟨.error, "Error"⟩ ∧
    StatusBadge .running = ⟨.info, "Running"⟩ ∧
    StatusBadge .pending = ⟨.warning, "Pending"⟩ ∧
    StatusBadge .skipped = ⟨.default, "Skipped"⟩ :=
  ⟨fun _ => rfl, by decide, by decide, by decide, by decide, by decide,
   by decide⟩

/-- C10: saving from the new-test page sends nothing when no test was
generated; otherwise the payload equals the generated test in every
field but `name`, and `name` is the user-entered name when that string
is non-empty, else the generated test's own name. -/
theorem handleSave_generated_with_name_override (t : TestCaseCreate)
    (n : String) :
    handleSave none n = none ∧
    (handleSave (some t) n).isSome = true ∧
    (handleSave (some t) n).map TestCaseCreate.description =
      some t.description ∧
    (handleSave (some t) n).map TestCaseCreate.tags = some t.tags ∧
    (handleSave (some t) n).map TestCaseCreate.steps = some t.steps ∧
    (handleSave (some t) n).map TestCaseCreate.setup_steps =
      some t.setup_steps ∧
    (handleSave (some t) n).map TestCaseCreate.teardown_steps =
      some t.teardown_steps ∧
    (n ≠ "" → (handleSave (some t) n).map TestCaseCreate.name = some n) ∧
    (n = "" → (handleSave (some t) n).map TestCaseCreate.name =
      some t.name) := by
  refine ⟨rfl, rfl, rfl, rfl, rfl, rfl, rfl, fun h => ?_, fun h => ?_⟩
  · simp [handleSave, h]
  · simp [handleSave, h]

/-- Witness for C10 at the sample generated test, once with a
user-entered name and once with the empty name. -/
theorem handleSave_generated_with_name_override_witness :
    (handleSave (some sampleGenerated) "My Login Test").map
      TestCaseCreate.name = some "My Login Test" ∧
    (handleSave (some sampleGenerated) "").map TestCaseCreate.name =
      some sampleGenerated.name :=
  ⟨(handleSave_generated_with_name_override sampleGenerated
      "My Login Test").2.2.2.2.2.2.2.1 (by decide),
   (handleSave_generated_with_name_override sampleGenerated
      "").2.2.2.2.2.2.2.2 rfl⟩

/-- C7: validation rejects (with a `ValidationError`, persisting
nothing since it returns `Except.error`) every test case whose body
`steps` sequence is empty, and never rejects a test case with at least
one body step on that ground. -/
theorem validate_rejects_empty_steps (tc : TestCaseCreate) :
    (tc.steps = [] → validateTestCaseCreate tc = .error .emptySteps) ∧
    (tc.steps ≠ [] → ∀ err, validateTestCaseCreate tc = .error err →
      err ≠ .emptySteps) := by
  constructor
  · intro h
    simp [validateTestCaseCreate, h]
  · intro h err herr
    have hne : tc.steps.isEmpty = false := by
      cases hs : tc.steps with
      | nil => exact absurd hs h
      | cons a l => rfl
    rw [validateTestCaseCreate, if_neg (by simp [hne])] at herr
    cases hfind : tc.steps.find?
        (fun s => requiresElement s.action && s.element.isNone) with
    | none => rw [hfind] at herr; exact absurd herr (by simp)
    | some s =>
      rw [hfind] at herr
      have : err = .stepMissingElement s.step_number := by
        cases herr
        rfl
      rw [this]
      intro hcontra
      cases hcontra

/-- Witness for C7: the empty sample payload is rejected for empty
steps, the generated sample payload is not. -/
theorem validate_rejects_empty_steps_witness :
    validateTestCaseCreate sampleEmptyCreate =
      .error ValidationError.emptySteps ∧
    validateTestCaseCreate sampleGenerated ≠
      .error ValidationError.emptySteps :=
  ⟨(validate_rejects_empty_steps sampleEmptyCreate).1 rfl,
   fun hc =>
    (validate_rejects_empty_steps sampleGenerated).2 (by decide)
      ValidationError.emptySteps hc rfl⟩

/-- Helper: a successful resolution comes from some strategy of the
attempted list yielding exactly one candidate element. -/
theorem resolveFrom_ok_unique (strategies : List Strategy)
    (loc : ElementLocator) (page : Page)
    (attempts : List (Strategy × Nat)) (e : PageElement)
    (h : resolveFrom strategies loc page attempts = .ok e) :
    ∃ s ∈ strategies, attemptStrategy loc page s = some [e] := by
  induction strategies generalizing attempts with
  | nil => exact absurd h (by simp [resolveFrom])
  | cons s rest ih =>
    rw [resolveFrom] at h
    cases hat : attemptStrategy loc page s with
    | none =>
      rw [hat] at h
      obtain ⟨t, ht, hts⟩ := ih _ h
      exact ⟨t, List.mem_cons_of_mem _ ht, hts⟩
    | some ms =>
      cases ms with
      | nil =>
        rw [hat] at h
        obtain ⟨t, ht, hts⟩ := ih _ h
        exact ⟨t, List.mem_cons_of_mem _ ht, hts⟩
      | cons e1 tail =>
        cases tail with
        | nil =>
          rw [hat] at h
          simp only [Except.ok.injEq] at h
          exact ⟨s, List.mem_cons_self s rest, h ▸ hat⟩
        | cons e2 tail2 =>
          rw [hat] at h
          obtain ⟨t, ht, hts⟩ := ih _ h
          exact ⟨t, List.mem_cons_of_mem _ ht, hts⟩

/-- C8: locator resolution is idempotent and deterministic: it leaves
the page unchanged, resolving again against the returned page gives
the same outcome — the same unique match (one coming from a strategy
with exactly one candidate) or the same failure. -/
theorem resolve_idempotent_deterministic (loc : ElementLocator)
    (page : Page) :
    (resolve loc page).2 = page ∧
    resolve loc ((resolve loc page).2) = resolve loc page ∧
    (∀ e, (resolve loc page).1 = .ok e →
      (resolve loc ((resolve loc page).2)).1 = .ok e ∧
      ∃ s ∈ precedenceOrder, attemptStrategy loc page s = some [e]) ∧
    (∀ err, (resolve loc page).1 = .error err →
      (resolve loc ((resolve loc page).2)).1 = .error err) := by
  refine ⟨rfl, rfl, fun e he => ⟨he, ?_⟩, fun err herr => herr⟩
  exact resolveFrom_ok_unique precedenceOrder loc page [] e he

/-- Witness for C8: resolving the sample locator twice against the
sample page yields the login button both times. -/
theorem resolve_idempotent_deterministic_witness :
    (resolve sampleLoginButton
      ((resolve sampleLoginButton samplePage).2)).1 =
      .ok sampleButtonElement ∧
    (resolve sampleLoginButton samplePage).2 = samplePage :=
  ⟨((resolve_idempotent_deterministic sampleLoginButton samplePage).2.2.1
      sampleButtonElement rfl).1,
   (resolve_idempotent_deterministic sampleLoginButton samplePage).1⟩

end Leny





